import Mathlib

/-!
Verification of the `get_liftie_data` Arduino sketch
(src/get_liftie_data/get_liftie_data.ino).

The sketch polls a JSON lift-status API and drives an addressable LED strip,
one LED per ski lift.  We embed the core logic shallowly:

* the LED frame buffer `leds` becomes a `List Color` of length `NUM_LEDS`;
* `const char *status` (a possibly-null C string) becomes `Option String`;
* the registry scan inside `updateLEDStatus` becomes `firstIdx`;
* the JSON document produced by ArduinoJson's `deserializeJson` (a third-party
  external collaborator, not code of this repository) is represented by
  `DecodeResult`: either a decode error, or a document whose optional `lifts`
  field is the ordered list of (lift name, status-or-null) pairs;
* the gated update block of `loop` (lines 94-106) becomes `loopCycle`, taking
  the hour of day and the fetch outcome as inputs and reporting, besides the
  new frame, whether a fetch and a parse were performed.
-/

namespace GetLiftieData

/-- `#define NUM_LEDS 49` -/
def NUM_LEDS : Nat := 49

/-- The four colors the sketch ever writes from `updateLEDStatus`
(`CRGB::Black`, `CRGB::Green`, `CRGB::Red`, `CRGB::Yellow`). -/
inductive Color where
  | Black
  | Green
  | Red
  | Yellow
deriving DecidableEq, Repr

/-- `const char *liftNames[]` — the fixed ordered registry of lift names. -/
def liftNames : List String :=
  ["Millerette", "Funiculaire", "Tommelet", "Combettes", "Vezaille",
   "Cachette", "Mont Blanc", "Clocheret", "Snowpark", "Arpette",
   "Carreley", "Vagere", "Charmettoger", "Transarc 1", "Villards",
   "Jardin Alpin", "Grizzly", "Lonzagne", "Vanoise Express Montchavin", "Parchey",
   "Peisey", "Vallandry", "Combe", "Cabri", "2300", "1Er Virages", "Derby",
   "Transarc 2", "Plan Vert", "Plagnettes", "Grand Col", "Arcabulle",
   "Eterlou", "Bois De L\x27ours", "Marmottes", "Varet", "Aiguille Rouge",
   "St Jacques", "Lanchettes", "Lac Des Combes", "Cabriolet", "Pre St Esprit",
   "Comborciere", "Rhonaz", "Droset", "Plan Des Violettes", "Replat"]

/-- `const int LiftCount = sizeof(liftNames) / sizeof(liftNames[0]);` -/
def LiftCount : Nat := liftNames.length

/-- Index of the first exact (case-sensitive, `strcmp`) match of `name` in a
list, or `none`: the search loop of `updateLEDStatus` (lines 206-211). -/
def firstIdx (name : String) : List String → Option Nat
  | [] => none
  | n :: rest => if n = name then some 0 else (firstIdx name rest).map (· + 1)

/-- The resolved LED index of a lift name (lines 204-211): starting from
`ledIndex = -1`, the scan sets `ledIndex = i + 1` at the first `i` with
`strcmp(liftNames[i], liftName.c_str()) == 0` and breaks; so the result is the
1-based position of the first match in the registry, `-1` when not found. -/
def lookupLedIndex (liftName : String) : Int :=
  match firstIdx liftName liftNames with
  | some i => (i : Int) + 1
  | none => -1

/-- The status-to-color chain of `updateLEDStatus` (lines 216-231).
`none` models a null `const char *status`. -/
def statusToColor (status : Option String) : Color :=
  match status with
  | none => Color.Black
  | some s =>
    if s = "open" then Color.Green
    else if s = "closed" then Color.Red
    else if s = "hold" ∨ s = "scheduled" then Color.Yellow
    else Color.Black

/-- `void updateLEDStatus(const char *status, String liftName)` acting on the
frame buffer: resolve the LED index by registry scan, map the status to a
color, and overwrite the slot when `0 < ledIndex ≤ NUM_LEDS` (lines 235-237),
otherwise leave the frame untouched. -/
def updateLEDStatus (status : Option String) (liftName : String)
    (leds : List Color) : List Color :=
  let ledIndex := lookupLedIndex liftName
  let newColor := statusToColor status
  if 0 < ledIndex ∧ ledIndex ≤ (NUM_LEDS : Int) then
    leds.set ledIndex.toNat newColor
  else
    leds

/-- The decoded JSON document: its optional top-level `lifts` object, as the
ordered list of (lift name, status string or JSON null) pairs.
`lifts = none` models `jsonDoc["lifts"].isNull()`. -/
structure Document where
  lifts : Option (List (String × Option String))
deriving DecidableEq, Repr

/-- Outcome of `deserializeJson` on a payload: a `DeserializationError`, or a
decoded document. -/
inductive DecodeResult where
  | err : DecodeResult
  | ok : Document → DecodeResult
deriving DecidableEq, Repr

/-- One iteration of the `for (JsonPair lift : lifts)` loop body
(lines 182-191): a null per-entry status is skipped (`continue`) after a
warning; otherwise `updateLEDStatus` runs on the entry. -/
def processEntry (leds : List Color) (entry : String × Option String) :
    List Color :=
  match entry.2 with
  | none => leds
  | some s => updateLEDStatus (some s) entry.1 leds

/-- `void parseAndDisplayLiftData(const String &payload)` acting on the frame
buffer, starting from the decode outcome: on decode error return unchanged
(lines 174-178); on a null/missing `lifts` field log and return unchanged
(lines 194-196); otherwise fold the entry loop over the document-ordered
entries and (implicitly, via `FastLED.show()`) commit. -/
def parseAndDisplayLiftData (d : DecodeResult) (leds : List Color) :
    List Color :=
  match d with
  | DecodeResult.err => leds
  | DecodeResult.ok doc =>
    match doc.lifts with
    | none => leds
    | some entries => entries.foldl processEntry leds

/-- The time gate of `loop` (line 97): `currentHour >= 8 && currentHour <= 17`. -/
def timeGate (hour : Int) : Bool :=
  decide (8 ≤ hour ∧ hour ≤ 17)

/-- Result of one gated update cycle: the new frame buffer, whether a fetch
was attempted, and whether the payload was parsed. -/
structure CycleResult where
  leds : List Color
  fetched : Bool
  parsed : Bool
deriving DecidableEq, Repr

/-- The gated update block of `loop` (lines 94-106).  `fetch` is the outcome
of `fetchLiftData` followed by decoding: `none` models an empty payload
(`payload.isEmpty()`), `some d` a non-empty payload decoding to `d`.  Inside
the daytime window the payload, when non-empty, is parsed and displayed;
otherwise (`Nighttime detected`) `FastLED.clear()` sets every slot to Black
and the cleared frame is shown. -/
def loopCycle (hour : Int) (fetch : Option DecodeResult) (leds : List Color) :
    CycleResult :=
  if timeGate hour then
    match fetch with
    | none => ⟨leds, true, false⟩
    | some d => ⟨parseAndDisplayLiftData d leds, true, true⟩
  else
    ⟨List.replicate NUM_LEDS Color.Black, false, false⟩

/-- Modelled from the spec: `deserializeJson` (ArduinoJson) is an external
collaborator not in this repository; per the wire-format contract of the spec
(a `lifts` object mapping lift-name strings to status strings or null), the
Scenario E payload — a `lifts` object binding "Derby" to JSON null — decodes
to a document whose entry list is `[("Derby", none)]`. -/
def scenarioEDecode : DecodeResult :=
  DecodeResult.ok ⟨some [("Derby", none)]⟩

/-! ### Helper lemmas about the registry scan -/

theorem liftNames_length : liftNames.length = 47 := by decide

theorem firstIdx_get {name : String} :
    ∀ {l : List String} {i : Nat}, firstIdx name l = some i → l[i]? = some name := by
  intro l
  induction l with
  | nil => intro i h; simp [firstIdx] at h
  | cons n rest ih =>
    intro i h
    by_cases hn : n = name
    · simp only [firstIdx, if_pos hn] at h
      cases h
      simp [hn]
    · simp only [firstIdx, if_neg hn, Option.map_eq_some'] at h
      obtain ⟨j, hj, rfl⟩ := h
      simpa using ih hj

theorem firstIdx_eq_none {name : String} :
    ∀ {l : List String}, firstIdx name l = none ↔ name ∉ l := by
  intro l
  induction l with
  | nil => simp [firstIdx]
  | cons n rest ih =>
    by_cases hn : n = name
    · simp [firstIdx, hn]
    · have hn' : name ≠ n := fun h => hn h.symm
      simp [firstIdx, hn, Option.map_eq_none', ih, hn']

theorem firstIdx_lt_length {name : String} :
    ∀ {l : List String} {i : Nat}, firstIdx name l = some i → i < l.length := by
  intro l
  induction l with
  | nil => intro i h; simp [firstIdx] at h
  | cons n rest ih =>
    intro i h
    by_cases hn : n = name
    · simp only [firstIdx, if_pos hn] at h
      cases h
      simp
    · simp only [firstIdx, if_neg hn, Option.map_eq_some'] at h
      obtain ⟨j, hj, rfl⟩ := h
      have := ih hj
      simp only [List.length_cons]
      omega

theorem firstIdx_inj {l : List String} {n₁ n₂ : String} {i : Nat}
    (h₁ : firstIdx n₁ l = some i) (h₂ : firstIdx n₂ l = some i) : n₁ = n₂ :=
  Option.some.inj ((firstIdx_get h₁).symm.trans (firstIdx_get h₂))

theorem firstIdx_of_mem {name : String} (h : name ∈ liftNames) :
    ∃ i, firstIdx name liftNames = some i := by
  cases hf : firstIdx name liftNames with
  | none => exact absurd (firstIdx_eq_none.mp hf) (not_not_intro h)
  | some i => exact ⟨i, rfl⟩

/-! ### Helper lemmas about `updateLEDStatus` -/

theorem lookupLedIndex_of_found {name : String} {i : Nat}
    (h : firstIdx name liftNames = some i) :
    lookupLedIndex name = (i : Int) + 1 := by
  simp [lookupLedIndex, h]

theorem updateLEDStatus_of_found {name : String} {i : Nat}
    (h : firstIdx name liftNames = some i) (s : Option String) (leds : List Color) :
    updateLEDStatus s name leds = leds.set (i + 1) (statusToColor s) := by
  have hlt : i < 47 := liftNames_length ▸ firstIdx_lt_length h
  have hguard : (0 : Int) < (i : Int) + 1 ∧ (i : Int) + 1 ≤ (NUM_LEDS : Int) := by
    constructor
    · omega
    · show (i : Int) + 1 ≤ (49 : Int)
      omega
  have htn : ((i : Int) + 1).toNat = i + 1 := by omega
  simp [updateLEDStatus, lookupLedIndex_of_found h, hguard, htn]

theorem updateLEDStatus_of_not_found {name : String}
    (h : name ∉ liftNames) (s : Option String) (leds : List Color) :
    updateLEDStatus s name leds = leds := by
  have hf : firstIdx name liftNames = none := firstIdx_eq_none.mpr h
  simp only [updateLEDStatus, lookupLedIndex, hf]
  norm_num

theorem updateLEDStatus_get_of_ne {name m : String} {i : Nat}
    (hname : firstIdx name liftNames = some i) (hne : m ≠ name)
    (s : Option String) (leds : List Color) :
    (updateLEDStatus s m leds)[i + 1]? = leds[i + 1]? := by
  cases hm : firstIdx m liftNames with
  | none => rw [updateLEDStatus_of_not_found (firstIdx_eq_none.mp hm) s leds]
  | some j =>
    rw [updateLEDStatus_of_found hm s leds]
    have hji : j ≠ i := fun hj => hne (firstIdx_inj (hj ▸ hm) hname)
    exact List.getElem?_set_ne (by omega)

theorem foldl_processEntry_get {name : String} {i : Nat}
    (hname : firstIdx name liftNames = some i) :
    ∀ (entries : List (String × Option String)) (leds : List Color),
      (∀ p ∈ entries, p.1 ≠ name) →
      (entries.foldl processEntry leds)[i + 1]? = leds[i + 1]? := by
  intro entries
  induction entries with
  | nil => intro leds _; rfl
  | cons e rest ih =>
    intro leds h
    have he : e.1 ≠ name := h e (by simp)
    have hr : ∀ p ∈ rest, p.1 ≠ name := fun p hp => h p (by simp [hp])
    simp only [List.foldl_cons]
    rw [ih _ hr]
    cases hst : e.2 with
    | none => simp [processEntry, hst]
    | some s =>
      simp only [processEntry, hst]
      exact updateLEDStatus_get_of_ne hname he _ _

/-! ### Claim theorems -/

/-- Claim C1: the status-to-color mapping applied by `updateLEDStatus` is a
deterministic total function with closed range Black/Green/Red/Yellow: it maps
"open" to Green, "closed" to Red, "hold" and "scheduled" to Yellow, a
null/absent status and any other unrecognized text to Black, and no other
color is ever produced. -/
theorem statusToColor_total_closed_range :
    statusToColor none = Color.Black ∧
    statusToColor (some "open") = Color.Green ∧
    statusToColor (some "closed") = Color.Red ∧
    statusToColor (some "hold") = Color.Yellow ∧
    statusToColor (some "scheduled") = Color.Yellow ∧
    (∀ s : String, s ≠ "open" → s ≠ "closed" → s ≠ "hold" → s ≠ "scheduled" →
      statusToColor (some s) = Color.Black) ∧
    (∀ st : Option String,
      statusToColor st = Color.Black ∨ statusToColor st = Color.Green ∨
      statusToColor st = Color.Red ∨ statusToColor st = Color.Yellow) := by
  refine ⟨rfl, by decide, by decide, by decide, by decide, ?_, ?_⟩
  · intro s h1 h2 h3 h4
    simp [statusToColor, h1, h2, h3, h4]
  · intro st
    cases statusToColor st <;> simp

/-- Witness for C1: the mapping evaluated at the unrecognized status
"windhold" yields Black. -/
theorem statusToColor_total_closed_range_witness :
    statusToColor (some "windhold") = Color.Black :=
  statusToColor_total_closed_range.2.2.2.2.2.1 "windhold"
    (by decide) (by decide) (by decide) (by decide)

/-- Claim C3: the time gate returns true exactly for hours in the inclusive
interval \[8, 17]; in particular hour 7 gives false, 8 true, 17 true, 18
false. -/
theorem timeGate_window :
    (∀ hour : Int, 0 ≤ hour → hour ≤ 23 →
      (timeGate hour = true ↔ 8 ≤ hour ∧ hour ≤ 17)) ∧
    timeGate 7 = false ∧ timeGate 8 = true ∧
    timeGate 17 = true ∧ timeGate 18 = false := by
  refine ⟨fun hour _ _ => ?_, by decide, by decide, by decide, by decide⟩
  simp [timeGate]

/-- Witness for C3: the gate evaluated at hour 12 is true. -/
theorem timeGate_window_witness : timeGate 12 = true :=
  (timeGate_window.1 12 (by decide) (by decide)).mpr (by decide)

/-- Claim C4: for every lift name not present in the fixed registry and every
status, `updateLEDStatus` leaves the entire frame buffer unchanged: the
unresolved index `-1` fails the `0 < ledIndex ≤ NUM_LEDS` guard and no LED
slot is written. -/
theorem unregistered_name_no_write :
    ∀ (name : String) (status : Option String) (leds : List Color),
      name ∉ liftNames →
      lookupLedIndex name = -1 ∧ updateLEDStatus status name leds = leds := by
  intro name s leds h
  have hf : firstIdx name liftNames = none := firstIdx_eq_none.mpr h
  exact ⟨by simp [lookupLedIndex, hf], updateLEDStatus_of_not_found h s leds⟩

/-- Witness for C4: applying the unregistered name "Bogus Lift" with status
"open" leaves an all-red frame unchanged. -/
theorem unregistered_name_no_write_witness :
    lookupLedIndex "Bogus Lift" = -1 ∧
    updateLEDStatus (some "open") "Bogus Lift" (List.replicate NUM_LEDS Color.Red) =
      List.replicate NUM_LEDS Color.Red :=
  unregistered_name_no_write "Bogus Lift" (some "open") _ (by decide)

/-- Claim C7: `updateLEDStatus` is idempotent: applying the same
(status, name) twice in a row yields the same frame buffer as applying it
once. -/
theorem updateLEDStatus_idempotent :
    ∀ (status : Option String) (name : String) (leds : List Color),
      updateLEDStatus status name (updateLEDStatus status name leds) =
        updateLEDStatus status name leds := by
  intro s name leds
  cases h : firstIdx name liftNames with
  | none =>
    have hn : name ∉ liftNames := firstIdx_eq_none.mp h
    rw [updateLEDStatus_of_not_found hn, updateLEDStatus_of_not_found hn]
  | some i =>
    rw [updateLEDStatus_of_found h, updateLEDStatus_of_found h, List.set_set]

/-- Claim C5: the registry lookup is a linear scan returning the 1-based
position of the first exact match ("Combettes" sits at 0-based position 3, so
its resolved index is 4), and processing a payload whose lifts object binds
"Combettes" to "open" sets exactly the LED at that index to Green, leaving
every other slot unchanged. -/
theorem combettes_scenario :
    firstIdx "Combettes" liftNames = some 3 ∧
    lookupLedIndex "Combettes" = 3 + 1 ∧
    (∀ leds : List Color, leds.length = NUM_LEDS →
      (parseAndDisplayLiftData
        (DecodeResult.ok ⟨some [("Combettes", some "open")]⟩) leds)[4]? =
          some Color.Green ∧
      ∀ j : Nat, j ≠ 4 →
        (parseAndDisplayLiftData
          (DecodeResult.ok ⟨some [("Combettes", some "open")]⟩) leds)[j]? =
            leds[j]?) := by
  have h3 : firstIdx "Combettes" liftNames = some 3 := by decide
  refine ⟨h3, by decide, fun leds hlen => ?_⟩
  have hupd : parseAndDisplayLiftData
      (DecodeResult.ok ⟨some [("Combettes", some "open")]⟩) leds =
      leds.set 4 (statusToColor (some "open")) := by
    simp only [parseAndDisplayLiftData, List.foldl_cons, List.foldl_nil, processEntry]
    exact updateLEDStatus_of_found h3 _ _
  have hgreen : statusToColor (some "open") = Color.Green := by decide
  constructor
  · rw [hupd, hgreen]
    exact List.getElem?_set_self (by rw [hlen]; decide)
  · intro j hj
    rw [hupd]
    exact List.getElem?_set_ne (fun h => hj h.symm)

/-- Witness for C5: on an all-red 49-slot frame, the Combettes payload turns
slot 4 Green and leaves slot 5 red. -/
theorem combettes_scenario_witness :
    (parseAndDisplayLiftData (DecodeResult.ok ⟨some [("Combettes", some "open")]⟩)
      (List.replicate NUM_LEDS Color.Red))[4]? = some Color.Green ∧
    (parseAndDisplayLiftData (DecodeResult.ok ⟨some [("Combettes", some "open")]⟩)
      (List.replicate NUM_LEDS Color.Red))[5]? =
      (List.replicate NUM_LEDS Color.Red)[5]? :=
  ⟨(combettes_scenario.2.2 (List.replicate NUM_LEDS Color.Red) (by decide)).1,
   (combettes_scenario.2.2 (List.replicate NUM_LEDS Color.Red) (by decide)).2 5 (by decide)⟩

/-- Claim C6: the frame buffer persists across update cycles: a registered
lift whose name does not occur among the parsed payload entries keeps the
color its slot had before the cycle. -/
theorem frame_persists_for_unmentioned_lifts :
    ∀ (entries : List (String × Option String)) (leds : List Color) (name : String),
      name ∈ liftNames →
      (∀ p ∈ entries, p.1 ≠ name) →
      (parseAndDisplayLiftData (DecodeResult.ok ⟨some entries⟩)
          leds)[(lookupLedIndex name).toNat]? =
        leds[(lookupLedIndex name).toNat]? := by
  intro entries leds name hmem hnot
  obtain ⟨i, hi⟩ := firstIdx_of_mem hmem
  have htn : (lookupLedIndex name).toNat = i + 1 := by
    rw [lookupLedIndex_of_found hi]
    omega
  rw [htn]
  simpa only [parseAndDisplayLiftData] using foldl_processEntry_get hi entries leds hnot

/-- Witness for C6: processing a Combettes-only payload leaves the slot of
"Derby" (index 27) of an all-yellow frame untouched. -/
theorem frame_persists_for_unmentioned_lifts_witness :
    (parseAndDisplayLiftData (DecodeResult.ok ⟨some [("Combettes", some "open")]⟩)
      (List.replicate NUM_LEDS Color.Yellow))[(lookupLedIndex "Derby").toNat]? =
      (List.replicate NUM_LEDS Color.Yellow)[(lookupLedIndex "Derby").toNat]? :=
  frame_persists_for_unmentioned_lifts [("Combettes", some "open")]
    (List.replicate NUM_LEDS Color.Yellow) "Derby" (by decide) (by decide)

/-- Claim C8: on a JSON decode failure, or a missing/null top-level `lifts`
field, or an empty payload, the cycle performs no LED updates and the frame
buffer is left exactly as it was before the cycle. -/
theorem parse_failure_leaves_frame :
    (∀ leds : List Color, parseAndDisplayLiftData DecodeResult.err leds = leds) ∧
    (∀ leds : List Color, parseAndDisplayLiftData (DecodeResult.ok ⟨none⟩) leds = leds) ∧
    (∀ (hour : Int) (leds : List Color), timeGate hour = true →
      loopCycle hour none leds = ⟨leds, true, false⟩) := by
  refine ⟨fun _ => rfl, fun _ => rfl, fun hour leds h => ?_⟩
  simp [loopCycle, h]

/-- Witness for C8: at hour 12 with an empty payload, an all-green frame
passes through the cycle unchanged. -/
theorem parse_failure_leaves_frame_witness :
    loopCycle 12 none (List.replicate NUM_LEDS Color.Green) =
      ⟨List.replicate NUM_LEDS Color.Green, true, false⟩ :=
  parse_failure_leaves_frame.2.2 12 (List.replicate NUM_LEDS Color.Green) (by decide)

/-- Claim C9: when the hour is outside the operating window, the cycle
performs no fetch and no parse, and the whole frame buffer is cleared to
Black regardless of its prior state. -/
theorem nighttime_clears_frame :
    ∀ (hour : Int) (fetch : Option DecodeResult) (leds : List Color),
      timeGate hour = false →
      loopCycle hour fetch leds =
        ⟨List.replicate NUM_LEDS Color.Black, false, false⟩ := by
  intro hour fetch leds h
  simp [loopCycle, h]

/-- Witness for C9: at hour 22, even with a successful fetch available and an
all-red prior frame, the cycle clears every slot to Black and fetches
nothing. -/
theorem nighttime_clears_frame_witness :
    loopCycle 22 (some (DecodeResult.ok ⟨some [("Combettes", some "open")]⟩))
      (List.replicate NUM_LEDS Color.Red) =
      ⟨List.replicate NUM_LEDS Color.Black, false, false⟩ :=
  nighttime_clears_frame 22 (some (DecodeResult.ok ⟨some [("Combettes", some "open")]⟩))
    (List.replicate NUM_LEDS Color.Red) (by decide)

/-- Claim C10: the registry has 47 entries, every registered name resolves to
an LED index in \[1, 48], within the strip length `NUM_LEDS = 49`; hence the
guarded write of `updateLEDStatus` is in bounds and always taken for
registered names (the silent-drop branch is unreachable there), and slot 0 is
never written by `updateLEDStatus` for any name. -/
theorem registered_names_in_bounds :
    LiftCount = 47 ∧
    (∀ name ∈ liftNames,
      1 ≤ lookupLedIndex name ∧ lookupLedIndex name ≤ 48 ∧
      0 < (lookupLedIndex name).toNat ∧ (lookupLedIndex name).toNat < NUM_LEDS) ∧
    (∀ name ∈ liftNames, ∀ (status : Option String) (leds : List Color),
      updateLEDStatus status name leds =
        leds.set (lookupLedIndex name).toNat (statusToColor status)) ∧
    (∀ (name : String) (status : Option String) (leds : List Color),
      (updateLEDStatus status name leds)[0]? = leds[0]?) := by
  have hN : NUM_LEDS = 49 := rfl
  refine ⟨by decide, ?_, ?_, ?_⟩
  · intro name hmem
    obtain ⟨i, hi⟩ := firstIdx_of_mem hmem
    have hlt : i < 47 := liftNames_length ▸ firstIdx_lt_length hi
    rw [lookupLedIndex_of_found hi]
    exact ⟨by omega, by omega, by omega, by omega⟩
  · intro name hmem s leds
    obtain ⟨i, hi⟩ := firstIdx_of_mem hmem
    have htn : (lookupLedIndex name).toNat = i + 1 := by
      rw [lookupLedIndex_of_found hi]
      omega
    rw [htn]
    exact updateLEDStatus_of_found hi s leds
  · intro name s leds
    cases h : firstIdx name liftNames with
    | none => rw [updateLEDStatus_of_not_found (firstIdx_eq_none.mp h) s leds]
    | some i =>
      rw [updateLEDStatus_of_found h s leds]
      exact List.getElem?_set_ne (by omega)

/-- Witness for C10: the registered name "Millerette" resolves in bounds. -/
theorem registered_names_in_bounds_witness :
    1 ≤ lookupLedIndex "Millerette" ∧ lookupLedIndex "Millerette" ≤ 48 ∧
    0 < (lookupLedIndex "Millerette").toNat ∧
    (lookupLedIndex "Millerette").toNat < NUM_LEDS :=
  registered_names_in_bounds.2.1 "Millerette" (by decide)

/-- Counterexample to claim C2: the Scenario E decode (Derby bound to JSON
null) leaves an all-red frame exactly as it was — Derby's slot (index 27)
stays Red, not Black — because the entry loop of `parseAndDisplayLiftData`
skips a null per-entry status with `continue` (lines 186-189), so the
null-status entry never reaches `updateLEDStatus`. -/
theorem null_status_not_black :
    "Derby" ∈ liftNames ∧
    parseAndDisplayLiftData scenarioEDecode (List.replicate NUM_LEDS Color.Red) =
      List.replicate NUM_LEDS Color.Red ∧
    (parseAndDisplayLiftData scenarioEDecode
      (List.replicate NUM_LEDS Color.Red))[(lookupLedIndex "Derby").toNat]? =
      some Color.Red := by decide

/-- Claim C2 as amended: processing a payload whose lifts object binds a lift
name to a null status skips that entry (with a logged warning) and leaves the
frame buffer — in particular that lift's LED slot — unchanged; the null
status is filtered out before the display step, not delivered as "absent". -/
theorem null_status_skipped :
    ∀ (name : String) (leds : List Color),
      parseAndDisplayLiftData (DecodeResult.ok ⟨some [(name, none)]⟩) leds = leds := by
  intro name leds
  rfl

end GetLiftieData
